import Mathlib

/-!
Shallow embedding of the client-side core of the 5g-edge-platform dashboard
(`PlatformUtils` / `StorageManager` in one utility file, `ChartManager` in the
chart file, `NotificationManager` in `notifications.js`), together with proofs
of the specified properties.

Host facilities (the DOM, `localStorage`, `JSON`, `echarts`, timers) are
modelled by their documented observable behaviour: timers become explicit
event lists, the DOM container becomes a predicate on element ids, chart
engine instances become fresh natural-number handles, and `JSON.stringify` /
`JSON.parse` are modelled as the specified round-tripping pair on JSON values
(stringify throws on self-referential structures and yields the JS value
`undefined` on the input `undefined`; parse throws on text that is not JSON).
-/

namespace PlatformUtils

/-- Sentinel returned by `formatTime` for a falsy timestamp (the source's
`'从未更新'`, "never updated"). -/
def neverUpdated : String := "从未更新"

/-- Sentinel returned by `formatTime` for an elapsed time under one minute
(the source's `'刚刚'`, "just now"). -/
def justNow : String := "刚刚"

/-- Embedding of `PlatformUtils.formatTime(date)`.  `now` is the value of
`new Date()` at call time, in epoch milliseconds; `date` is the argument
(`none` models `null`/`undefined`/missing).  The source guard `if (!date)` is
JS truthiness: it also fires on the number `0`, hence the extra `d = 0` test.
Division is `Math.floor(diff / unit)`; the branches that divide only run with
`diff > 0`, where `Int` division toward zero agrees with `Math.floor`. -/
def formatTime (now : Int) (date : Option Int) : String :=
  match date with
  | none => neverUpdated
  | some d =>
    if d = 0 then neverUpdated
    else
      let diff := now - d
      if diff < 60000 then justNow
      else if diff < 3600000 then toString (diff / 60000) ++ "分钟前"
      else if diff < 86400000 then toString (diff / 3600000) ++ "小时前"
      else toString (diff / 86400000) ++ "天前"

/-- Embedding of `PlatformUtils.formatValue(value, unit)`. -/
def formatValue (value : Option Int) (unit : String := "") : String :=
  match value with
  | none => "--"
  | some v => toString v ++ " " ++ unit

/-- Embedding of `PlatformUtils.getSensorIcon(sensorType)`. -/
def getSensorIcon (sensorType : String) : String :=
  if sensorType = "temperature" then "fa-thermometer-half"
  else if sensorType = "humidity" then "fa-tint"
  else if sensorType = "light" then "fa-sun"
  else if sensorType = "pressure" then "fa-tachometer-alt"
  else if sensorType = "camera" then "fa-camera"
  else "fa-microchip"

/-- Event-loop semantics of one wrapped instance returned by
`PlatformUtils.debounce(func, wait)`.  `calls` is the time-ordered burst of
invocations of the wrapped function, each with its call time and arguments;
`pending` is the single `timeout` variable of the closure: the scheduled fire
time and the captured arguments of the call that armed it (`none` when no
timer is pending).  A pending timer whose fire time has arrived by the next
call fires first (emitting one execution of `func`); every call then does
`clearTimeout(timeout); timeout = setTimeout(later, wait)`, i.e. replaces the
pending timer with one for its own arguments.  A timer still pending after
the burst fires at the end.  The result lists every execution of `func`, as
(fire time, arguments). -/
def debounceRun (wait : Nat) : List (Nat × α) → Option (Nat × α) → List (Nat × α)
  | [], pending =>
    match pending with
    | none => []
    | some p => [p]
  | (t, a) :: rest, pending =>
    match pending with
    | some (ft, pa) =>
      if ft ≤ t then (ft, pa) :: debounceRun wait rest (some (t + wait, a))
      else debounceRun wait rest (some (t + wait, a))
    | none => debounceRun wait rest (some (t + wait, a))

/-- All executions of the underlying action for a fresh wrapped instance of
`PlatformUtils.debounce` driven by the call sequence `calls`. -/
def debounce (wait : Nat) (calls : List (Nat × α)) : List (Nat × α) :=
  debounceRun wait calls none

/-- Two consecutive calls of a burst: the second comes no earlier than the
first and strictly less than `wait` after it, so the timer armed by the first
is still pending and gets cancelled. -/
def burstStep (wait : Nat) (p q : Nat × α) : Prop :=
  p.1 ≤ q.1 ∧ q.1 < p.1 + wait

instance (wait : Nat) : DecidableRel (burstStep (α := α) wait) := fun p q =>
  inferInstanceAs (Decidable (p.1 ≤ q.1 ∧ q.1 < p.1 + wait))

end PlatformUtils

/-- Association-list update with JS `Map.set` / `localStorage.setItem`
semantics: an existing key keeps its position and gets the new value, a new
key is appended. -/
def assocSet {κ β : Type} [DecidableEq κ] : List (κ × β) → κ → β → List (κ × β)
  | [], k, v => [(k, v)]
  | (k', v') :: rest, k, v =>
    if k' = k then (k, v) :: rest else (k', v') :: assocSet rest k v

/-- Association-list lookup (JS `Map.get` / `localStorage.getItem`). -/
def assocGet {κ β : Type} [DecidableEq κ] : List (κ × β) → κ → Option β
  | [], _ => none
  | (k', v') :: rest, k => if k' = k then some v' else assocGet rest k

/-- Keys of an association list are pairwise distinct (the `Map` /
`localStorage` key-uniqueness invariant). -/
def KeysNodup {κ β : Type} (l : List (κ × β)) : Prop :=
  (l.map Prod.fst).Nodup

instance {κ β : Type} [DecidableEq κ] (l : List (κ × β)) :
    Decidable (KeysNodup l) :=
  inferInstanceAs (Decidable (l.map Prod.fst).Nodup)

/-- A JSON value, the image of `JSON.stringify`/`JSON.parse` round trips.
Numbers are modelled as integers (no floating point is involved in the
claims).  Lean structural equality on `Json` is exactly deep equality. -/
inductive Json : Type
  | null
  | bool (b : Bool)
  | num (n : Int)
  | str (s : String)
  | arr (elems : List Json)
  | obj (fields : List (String × Json))

/-- A JS value handed to `StorageManager.set`, classified by how
`JSON.stringify` treats it: a JSON-serializable value serializes to the
(nonempty) JSON text of its `Json` image; the value `undefined` makes
`JSON.stringify` return the JS value `undefined` (no exception); a
self-referential structure makes `JSON.stringify` throw a `TypeError`. -/
inductive JsValue : Type
  | json (j : Json)
  | undef
  | cyclic

/-- The text stored under a key of the medium by this program: either the
JSON serialization of a value `j` (valid JSON, never the empty string), or
the literal text `"undefined"` — `localStorage.setItem` coerces the JS value
`undefined` to that string — which is not valid JSON, so `JSON.parse` throws
on it. -/
inductive StoredText : Type
  | jsonText (j : Json)
  | rawUndefined

/-- The `localStorage` medium: a key-unique string-keyed map, modelled as an
insertion-ordered association list. -/
abbrev Store : Type := List (String × StoredText)

namespace StorageManager

/-- Embedding of `StorageManager.set(key, value)`: `JSON.stringify(value)`
then `localStorage.setItem`, inside `try`/`catch`.  Returns the boolean
result together with the medium after the call.  A serialization `TypeError`
is caught before `setItem` runs, so the medium is untouched and the result is
`false`; `stringify` of `undefined` yields the JS value `undefined`, which
`setItem` stores as the literal text `"undefined"`, and `set` reports
`true`. -/
def set (st : Store) (key : String) (value : JsValue) : Bool × Store :=
  match value with
  | .json j => (true, assocSet st key (.jsonText j))
  | .undef => (true, assocSet st key .rawUndefined)
  | .cyclic => (false, st)

/-- Embedding of `StorageManager.get(key, defaultValue)`:
`localStorage.getItem` then `item ? JSON.parse(item) : defaultValue` inside
`try`/`catch`.  An absent key gives `null`, which is falsy, so the default is
returned.  A stored JSON text is nonempty (truthy) and parses back to its
`Json` value.  The stored text `"undefined"` is truthy but `JSON.parse`
throws on it; the `catch` returns the default. -/
def get (st : Store) (key : String) (defaultValue : JsValue) : JsValue :=
  match assocGet st key with
  | none => defaultValue
  | some (.jsonText j) => .json j
  | some .rawUndefined => defaultValue

end StorageManager

namespace NotificationManager

/-- State of one `NotificationManager` instance.  `children` are the
notification elements currently attached to the container (`this.container`),
in DOM order; each element is identified by the `Nat` allocated when it was
created.  `timers` are the entry ids with a pending auto-dismiss
`setTimeout` callback.  `nextId` allocates fresh element identities
(`document.createElement` never returns an existing node). -/
structure State : Type where
  children : List Nat
  timers : List Nat
  nextId : Nat

/-- The freshly constructed manager: empty container, no timers. -/
def initial : State := ⟨[], [], 0⟩

/-- Embedding of `NotificationManager.show(message, type, duration)`: creates
a fresh notification element, appends it to the container, and — only when
`duration > 0` — schedules an auto-dismiss timer for it.  Returns the new
element (the handle) with the new state.  Message and type only affect the
rendered text/colors, not the lifecycle, so they are not part of the
state. -/
def show_ (s : State) (duration : Int) : Nat × State :=
  let id := s.nextId
  (id,
   { children := s.children ++ [id]
     timers := if duration > 0 then s.timers ++ [id] else s.timers
     nextId := id + 1 })

/-- Manual dismissal of a notification handle: `notification.remove()`.
Removing a detached node is a no-op and never throws; no timer is cleared
(the source keeps no reference to the timeout). -/
def dismiss (s : State) (e : Nat) : State :=
  { s with children := s.children.erase e }

/-- The auto-dismiss timer callback for entry `e` firing:
`if (notification.parentNode) { notification.remove(); }`.  The pending timer
is consumed.  The `parentNode` guard makes the callback a no-op on an entry
that was already removed. -/
def fireTimer (s : State) (e : Nat) : State :=
  { children := if e ∈ s.children then s.children.erase e else s.children
    timers := s.timers.erase e
    nextId := s.nextId }

/-- An event of the notification lifecycle: a `show` call, a manual
dismissal of a handle, or an auto-dismiss timer firing. -/
inductive Event : Type
  | show_ (duration : Int)
  | dismiss (e : Nat)
  | fire (e : Nat)

/-- One event acting on the state. -/
def step (s : State) : Event → State
  | .show_ d => (show_ s d).2
  | .dismiss e => dismiss s e
  | .fire e => fireTimer s e

/-- A sequence of events acting on the state. -/
def run (s : State) : List Event → State
  | [] => s
  | ev :: evs => run (step s ev) evs

/-- Well-formedness: the attached elements are pairwise distinct nodes and
were all allocated in the past.  Holds for every state reachable from
`initial`. -/
def WF (s : State) : Prop :=
  s.children.Nodup ∧ ∀ x ∈ s.children, x < s.nextId

instance (s : State) : Decidable (WF s) :=
  inferInstanceAs (Decidable (s.children.Nodup ∧ ∀ x ∈ s.children, x < s.nextId))

/-- State after two `show_` calls (durations 100 and 5000) followed by a
manual dismissal of the first entry. -/
def sampleDismissed : State :=
  dismiss (run initial [.show_ 100, .show_ 5000]) 0

end NotificationManager

/-- One line series of an ECharts option, as built by
`createSensorTrendChart`: display name, series type, the (timestamp, value)
data points, and the smoothing flag. -/
structure Series : Type where
  name : String
  type : String
  data : List (Int × Int)
  smooth : Bool

/-- The parts of the ECharts option object that the chart file constructs:
the static title/axis configuration and the series list.  Tooltip and
styling strings are fixed literals in the source and carry no lifecycle
information, so only the discriminating fields are kept. -/
structure ChartOption : Type where
  titleText : String
  xAxisType : String
  yAxisType : String
  series : List Series

/-- One sample of a sensor history entry (`item.timestamp`, `item.value`). -/
structure HistoryItem : Type where
  timestamp : Int
  value : Int

/-- One value of the `sensorData` map: display name and history.  `none`
models a missing/`null`/`undefined` `history` field (falsy in the source's
`data.history &&` guard); `some h` a present array. -/
structure SensorData : Type where
  name : String
  history : Option (List HistoryItem)

namespace ChartManager

/-- State of one `ChartManager` instance together with the window listener
list it mutates.  Chart engine instances (`echarts.init` results) are fresh
`Nat` handles allocated by `nextInst`.  `charts` is `this.charts`
(insertion-ordered, key-unique `Map` from chart id to instance).
`listeners` records, in attachment order, the chart instance captured by each
`window.addEventListener('resize', ...)` closure; the source never calls
`removeEventListener`.  `instOptions` records the option applied to each
instance via `chart.setOption`. -/
structure State : Type where
  charts : List (String × Nat)
  listeners : List Nat
  instOptions : List (Nat × ChartOption)
  nextInst : Nat

/-- A freshly constructed `ChartManager`. -/
def initial : State := ⟨[], [], [], 0⟩

/-- Embedding of `ChartManager.initChart(chartId, options)`.  `dom` is the
page: `dom id = true` iff `document.getElementById(id)` finds a container.
If the container is missing the call logs and returns `null` with the state
untouched.  Otherwise a fresh engine instance is created, the option is
applied, the handle is registered under `chartId` (replacing any prior
binding for that id), and a new window-resize listener closing over the new
instance is attached.  No listener is ever detached. -/
def initChart (dom : String → Bool) (s : State) (chartId : String)
    (options : ChartOption) : Option Nat × State :=
  if dom chartId then
    let chart := s.nextInst
    (some chart,
     { charts := assocSet s.charts chartId chart
       listeners := s.listeners ++ [chart]
       instOptions := s.instOptions ++ [(chart, options)]
       nextInst := chart + 1 })
  else (none, s)

/-- The series list `createSensorTrendChart` pushes into `option.series`:
the source's `Object.entries(sensorData).forEach` visits the entries in the
map's iteration order and pushes one smoothed line series for each entry
whose `data.history` is truthy and non-empty, with the history mapped to
(timestamp, value) pairs; a push-in-iteration-order loop produces the same
list as this structural recursion.  Entries with missing or empty history
are skipped. -/
def buildSeries : List (String × SensorData) → List Series
  | [] => []
  | p :: rest =>
    match p.2.history with
    | some h =>
      if h.length > 0 then
        ⟨p.2.name, "line", h.map (fun it => (it.timestamp, it.value)), true⟩
          :: buildSeries rest
      else buildSeries rest
    | none => buildSeries rest

/-- Whether an entry of the sensor map contributes a series: the source's
`data.history && data.history.length > 0` guard. -/
def hasHistory (d : SensorData) : Bool :=
  match d.history with
  | some h => decide (h.length > 0)
  | none => false

/-- The series built for one contributing entry. -/
def mkSeries (p : String × SensorData) : Series :=
  ⟨p.2.name, "line",
   ((p.2.history).getD []).map (fun it => (it.timestamp, it.value)), true⟩

/-- The full option object `createSensorTrendChart` constructs before
delegating to `initChart`.  `sensorData = none` models a `null`/`undefined`
argument (the `sensorData &&` guard); the `Object.keys(...).length > 0` test
skips the loop for an empty map, leaving `series` empty either way. -/
def trendOption (sensorData : Option (List (String × SensorData))) : ChartOption :=
  { titleText := "传感器数据趋势"
    xAxisType := "time"
    yAxisType := "value"
    series :=
      match sensorData with
      | some l => if l.length > 0 then buildSeries l else []
      | none => [] }

/-- Embedding of `ChartManager.createSensorTrendChart(chartId, sensorData)`:
builds the trend option and delegates to `initChart`. -/
def createSensorTrendChart (dom : String → Bool) (s : State) (chartId : String)
    (sensorData : Option (List (String × SensorData))) : Option Nat × State :=
  initChart dom s chartId (trendOption sensorData)

/-- Embedding of `ChartManager.resizeAll()`: `this.charts.forEach(chart =>
chart.resize())`.  Returns the chart instances resized, in registry
iteration order. -/
def resizeAll (s : State) : List Nat :=
  s.charts.map Prod.snd

/-- A window `resize` event firing: every attached resize listener runs, in
attachment order, each resizing the chart instance its closure captured.
Returns the instances resized. -/
def fireResize (s : State) : List Nat :=
  s.listeners

/-- A page on which every container id exists. -/
def domAll : String → Bool := fun _ => true

/-- State after initializing chart id "c" once on `domAll`. -/
def reinitOnce : State := (initChart domAll initial "c" (trendOption none)).2

/-- State after initializing chart id "c" a second time on `domAll`,
replacing the registered handle. -/
def reinitTwice : State := (initChart domAll reinitOnce "c" (trendOption none)).2

/-- The specified end-to-end example map: sensor s1 "Temp" with an empty
history and sensor s2 "Humidity" with the single sample (1000, 20). -/
def exampleSensorData : List (String × SensorData) :=
  [("s1", ⟨"Temp", some []⟩), ("s2", ⟨"Humidity", some [⟨1000, 20⟩]⟩)]

end ChartManager

/-! Lemmas about the association-list model of `Map` and `localStorage`. -/

theorem assocGet_assocSet_self {κ β : Type} [DecidableEq κ]
    (l : List (κ × β)) (k : κ) (v : β) :
    assocGet (assocSet l k v) k = some v := by
  induction l with
  | nil => simp [assocSet, assocGet]
  | cons p rest ih =>
    obtain ⟨k', v'⟩ := p
    by_cases h : k' = k
    · simp [assocSet, assocGet, h]
    · simp [assocSet, assocGet, h, ih]

theorem mem_keys_assocSet {κ β : Type} [DecidableEq κ]
    (l : List (κ × β)) (k x : κ) (v : β) :
    x ∈ (assocSet l k v).map Prod.fst ↔ x ∈ l.map Prod.fst ∨ x = k := by
  induction l with
  | nil => simp [assocSet]
  | cons p rest ih =>
    obtain ⟨k', v'⟩ := p
    by_cases h : k' = k
    · subst h
      simp only [assocSet, eq_self_iff_true, if_true]
      simp only [List.map_cons, List.mem_cons]
      tauto
    · simp only [assocSet]
      rw [if_neg h]
      simp only [List.map_cons, List.mem_cons, ih]
      tauto

theorem keysNodup_assocSet {κ β : Type} [DecidableEq κ]
    (l : List (κ × β)) (k : κ) (v : β) (h : KeysNodup l) :
    KeysNodup (assocSet l k v) := by
  induction l with
  | nil => simp [assocSet, KeysNodup]
  | cons p rest ih =>
    obtain ⟨k', v'⟩ := p
    unfold KeysNodup at h ⊢
    simp only [List.map_cons, List.nodup_cons] at h
    by_cases hk : k' = k
    · subst hk
      simp only [assocSet, eq_self_iff_true, if_true]
      simpa only [List.map_cons, List.nodup_cons] using h
    · simp only [assocSet]
      rw [if_neg hk]
      simp only [List.map_cons, List.nodup_cons]
      refine ⟨fun hmem => ?_, ih h.2⟩
      rcases (mem_keys_assocSet rest k k' v).mp hmem with h1 | h2
      · exact h.1 h1
      · exact hk h2

/-! Theorems about `StorageManager`. -/

/-- C3: for every key `k`, JSON-serializable value (image `j`) and default
`d`, `StorageManager.get k d` evaluated on the medium produced by a
successful `StorageManager.set k v` (no intervening writes) returns a value
structurally equal to the stored one — Lean equality on `Json` is deep
equality — and the result does not depend on `d`: the set reports success
and the get returns exactly `.json j`, whatever `d` is. -/
theorem StorageManager.get_after_set_roundtrip
    (st : Store) (k : String) (j : Json) (d : JsValue) :
    (StorageManager.set st k (.json j)).1 = true
    ∧ StorageManager.get (StorageManager.set st k (.json j)).2 k d = .json j := by
  refine ⟨rfl, ?_⟩
  unfold StorageManager.get StorageManager.set
  rw [assocGet_assocSet_self]

/-- C4: for every key and every value whose serialization throws (a
self-referential structure, modelled by `JsValue.cyclic`),
`StorageManager.set` returns `false` without throwing and leaves the medium
— hence any previously stored value under `k` — completely unchanged, so a
subsequent `get` observes exactly what it observed before the failed set. -/
theorem StorageManager.set_unserializable_preserves_store
    (st : Store) (k : String) (d : JsValue) :
    StorageManager.set st k .cyclic = (false, st)
    ∧ StorageManager.get (StorageManager.set st k .cyclic).2 k d
      = StorageManager.get st k d :=
  ⟨rfl, rfl⟩

/-- C9: `StorageManager.set k undefined` reports success (`true`) even
though `undefined` is not JSON-serializable: the medium ends up holding the
literal text `"undefined"`, which is not valid JSON, so an immediately
following `StorageManager.get k d` falls into the parse `catch` and returns
the caller-supplied default `d` instead of a stored value. -/
theorem StorageManager.set_undefined_success_get_default
    (st : Store) (k : String) (d : JsValue) :
    (StorageManager.set st k .undef).1 = true
    ∧ assocGet (StorageManager.set st k .undef).2 k = some .rawUndefined
    ∧ StorageManager.get (StorageManager.set st k .undef).2 k d = d := by
  refine ⟨rfl, assocGet_assocSet_self st k _, ?_⟩
  unfold StorageManager.get StorageManager.set
  rw [assocGet_assocSet_self]

/-! Theorems about `PlatformUtils.formatTime`. -/

/-- C6 counterexample: the timestamp 0 is a non-null timestamp lying exactly
two days in the past at `now = 172800000`, so the claim requires the "2 days
ago" format, but the source's guard `if (!date)` is a JS truthiness test
that also fires on the number 0 and returns the never-updated sentinel. -/
theorem PlatformUtils.formatTime_zero_timestamp_cex :
    PlatformUtils.formatTime 172800000 (some 0) = PlatformUtils.neverUpdated
    ∧ PlatformUtils.formatTime 172800000 (some 0)
      ≠ toString ((172800000 : Int) / 86400000) ++ "天前" :=
  ⟨rfl, by decide⟩

/-- C6 (amended): a null/missing timestamp yields the never-updated
sentinel, and so does the timestamp 0 (the source's falsy guard); for every
nonzero timestamp `T` with elapsed time `e = now - T ≥ 0`, `formatTime`
buckets `e` with strict upper bounds and floor division: `e < 60000` gives
the just-now sentinel, `60000 ≤ e < 3600000` gives whole minutes,
`3600000 ≤ e < 86400000` whole hours, `e ≥ 86400000` whole days — so exactly
at the 60000/3600000/86400000 boundaries the result is the next bucket's
format. -/
theorem PlatformUtils.formatTime_buckets (now T : Int) (hT : T ≠ 0)
    (h0 : 0 ≤ now - T) :
    (∀ n, PlatformUtils.formatTime n none = PlatformUtils.neverUpdated)
    ∧ (now - T < 60000 →
        PlatformUtils.formatTime now (some T) = PlatformUtils.justNow)
    ∧ (60000 ≤ now - T → now - T < 3600000 →
        PlatformUtils.formatTime now (some T)
          = toString ((now - T) / 60000) ++ "分钟前")
    ∧ (3600000 ≤ now - T → now - T < 86400000 →
        PlatformUtils.formatTime now (some T)
          = toString ((now - T) / 3600000) ++ "小时前")
    ∧ (86400000 ≤ now - T →
        PlatformUtils.formatTime now (some T)
          = toString ((now - T) / 86400000) ++ "天前") := by
  refine ⟨fun n => rfl, ?_, ?_, ?_, ?_⟩ <;>
    intros <;>
    simp only [PlatformUtils.formatTime, if_neg hT] <;>
    split_ifs <;>
    first
      | rfl
      | omega

/-- Witness for the amended C6 at the exact one-minute boundary: an elapsed
time of exactly 60000 ms formats as "1 minute ago", the next bucket, not as
the just-now sentinel. -/
theorem PlatformUtils.formatTime_buckets_witness :
    PlatformUtils.formatTime 60001 (some 1) = "1分钟前" := by
  have h := PlatformUtils.formatTime_buckets 60001 1 (by decide) (by decide)
  exact (h.2.2.1 (by decide) (by decide)).trans rfl

/-- C10: for every timestamp in the future (`now - T < 0`, with `now`
nonnegative as an epoch clock is), `formatTime` returns the just-now
sentinel — the same result as for an elapsed time under one minute — rather
than an error, a negative count, or a distinct future format. -/
theorem PlatformUtils.formatTime_future_just_now (now T : Int)
    (hnow : 0 ≤ now) (hf : now - T < 0) :
    PlatformUtils.formatTime now (some T) = PlatformUtils.justNow := by
  have hT : T ≠ 0 := by omega
  simp only [PlatformUtils.formatTime, if_neg hT]
  rw [if_pos (by omega)]

/-- Witness for C10 at a concrete future timestamp. -/
theorem PlatformUtils.formatTime_future_just_now_witness :
    PlatformUtils.formatTime 0 (some 5) = PlatformUtils.justNow :=
  PlatformUtils.formatTime_future_just_now 0 5 (by decide) (by decide)

/-! Theorems about `PlatformUtils.debounce`. -/

theorem PlatformUtils.debounceRun_burst (wait : Nat) (calls : List (Nat × α)) :
    ∀ (t : Nat) (a : α),
      List.Chain (PlatformUtils.burstStep wait) (t, a) calls →
      PlatformUtils.debounceRun wait calls (some (t + wait, a)) =
        [((calls.getLastD (t, a)).1 + wait, (calls.getLastD (t, a)).2)] := by
  induction calls with
  | nil => intro t a _; rfl
  | cons q rest ih =>
    intro t a h
    obtain ⟨u, b⟩ := q
    rw [List.chain_cons] at h
    simp only [PlatformUtils.burstStep] at h
    obtain ⟨⟨h1, h2⟩, h3⟩ := h
    have hle : ¬ (t + wait ≤ u) := by omega
    simp only [PlatformUtils.debounceRun, if_neg hle, List.getLastD_cons]
    exact ih u b h3

/-- C2: for every action, wait time, and burst of N ≥ 1 calls to one
wrapped instance in which consecutive calls are separated by less than
`wait`, the underlying action executes exactly once for the burst — the
execution list is the singleton carrying the arguments of the most recent
(N-th) call, scheduled `wait` after it.  The argument sets of calls 1..N-1
appear in no execution (discarded, never queued): each call's
`clearTimeout` cancels the timer pending from the prior call. -/
theorem PlatformUtils.debounce_burst_executes_once (wait t : Nat) (a : α)
    (rest : List (Nat × α))
    (hburst : List.Chain (PlatformUtils.burstStep wait) (t, a) rest) :
    PlatformUtils.debounce wait ((t, a) :: rest) =
      [((rest.getLastD (t, a)).1 + wait, (rest.getLastD (t, a)).2)] := by
  unfold PlatformUtils.debounce
  show PlatformUtils.debounceRun wait rest (some (t + wait, a)) = _
  exact PlatformUtils.debounceRun_burst wait rest t a hburst

/-- Witness for C2: a burst of three calls 50 and 70 ms apart under a
100 ms wait executes the action exactly once, with the third call's
argument, 100 ms after the third call. -/
theorem PlatformUtils.debounce_burst_executes_once_witness :
    List.Chain (PlatformUtils.burstStep 100) ((0 : Nat), (1 : Nat))
      [(50, 2), (120, 3)]
    ∧ PlatformUtils.debounce 100 [((0 : Nat), (1 : Nat)), (50, 2), (120, 3)]
      = [(220, 3)] :=
  have hc : List.Chain (PlatformUtils.burstStep 100) ((0 : Nat), (1 : Nat))
      [(50, 2), (120, 3)] :=
    .cons (by decide) (.cons (by decide) .nil)
  ⟨hc,
   (PlatformUtils.debounce_burst_executes_once 100 0 1 [(50, 2), (120, 3)]
      hc).trans rfl⟩

/-! Theorems about `NotificationManager`. -/

theorem NotificationManager.wf_step (s : NotificationManager.State)
    (ev : NotificationManager.Event) (hwf : NotificationManager.WF s) :
    NotificationManager.WF (NotificationManager.step s ev) := by
  obtain ⟨hnd, hlt⟩ := hwf
  cases ev with
  | show_ d =>
    simp only [NotificationManager.step, NotificationManager.show_,
      NotificationManager.WF]
    constructor
    · rw [List.nodup_append]
      refine ⟨hnd, List.nodup_singleton _, ?_⟩
      intro x hx hx'
      rw [List.mem_singleton] at hx'
      exact absurd (hx' ▸ hlt x hx) (lt_irrefl _)
    · intro x hx
      rcases List.mem_append.mp hx with h | h
      · exact Nat.lt_succ_of_lt (hlt x h)
      · rw [List.mem_singleton] at h
        omega
  | dismiss e =>
    exact ⟨hnd.erase e, fun x hx => hlt x (List.mem_of_mem_erase hx)⟩
  | fire e =>
    simp only [NotificationManager.step, NotificationManager.fireTimer,
      NotificationManager.WF]
    split_ifs with h
    · exact ⟨hnd.erase e, fun x hx => hlt x (List.mem_of_mem_erase hx)⟩
    · exact ⟨hnd, hlt⟩

theorem NotificationManager.not_mem_step (s : NotificationManager.State)
    (ev : NotificationManager.Event) (e : Nat) (hlt : e < s.nextId)
    (hnm : e ∉ s.children) :
    e ∉ (NotificationManager.step s ev).children
    ∧ e < (NotificationManager.step s ev).nextId := by
  cases ev with
  | show_ d =>
    simp only [NotificationManager.step, NotificationManager.show_]
    refine ⟨fun hx => ?_, Nat.lt_succ_of_lt hlt⟩
    rcases List.mem_append.mp hx with h | h
    · exact hnm h
    · rw [List.mem_singleton] at h
      omega
  | dismiss x =>
    exact ⟨fun hx => hnm (List.mem_of_mem_erase hx), hlt⟩
  | fire x =>
    simp only [NotificationManager.step, NotificationManager.fireTimer]
    split_ifs with h
    · exact ⟨fun hx => hnm (List.mem_of_mem_erase hx), hlt⟩
    · exact ⟨hnm, hlt⟩

theorem NotificationManager.run_no_reappear
    (evs : List NotificationManager.Event) :
    ∀ (s : NotificationManager.State) (e : Nat), e < s.nextId →
      e ∉ s.children → e ∉ (NotificationManager.run s evs).children := by
  induction evs with
  | nil => intro s e _ h; exact h
  | cons ev rest ih =>
    intro s e hlt hnm
    obtain ⟨h1, h2⟩ := NotificationManager.not_mem_step s ev e hlt hnm
    exact ih (NotificationManager.step s ev) e h2 h1

/-- C5: for a well-formed notification state, (i) dismissing an entry that
is no longer attached — already dismissed manually or by timer expiry — is a
no-op on the whole state (it never throws and leaves every other entry in
place); (ii) after a manual dismissal of `e`, `e`'s own auto-dismiss timer
firing does not change the visible region — the `parentNode` guard makes the
pending dismissal effect-free, the behavioral content of "implicitly
cancels"; (iii) a dismissal leaves membership of every other entry
untouched; (iv) once an allocated entry is out of the visible region, no
later sequence of show/dismiss/timer events ever makes it reappear. -/
theorem NotificationManager.dismiss_idempotent_permanent
    (s : NotificationManager.State) (e : Nat)
    (hwf : NotificationManager.WF s) :
    (e ∉ s.children → NotificationManager.dismiss s e = s)
    ∧ (NotificationManager.fireTimer (NotificationManager.dismiss s e) e).children
        = (NotificationManager.dismiss s e).children
    ∧ (∀ x, x ≠ e →
        (x ∈ (NotificationManager.dismiss s e).children ↔ x ∈ s.children))
    ∧ (∀ evs, e < s.nextId → e ∉ s.children →
        e ∉ (NotificationManager.run s evs).children) := by
  obtain ⟨hnd, hlt⟩ := hwf
  refine ⟨?_, ?_, ?_, ?_⟩
  · intro h
    unfold NotificationManager.dismiss
    rw [List.erase_of_not_mem h]
  · simp only [NotificationManager.fireTimer, NotificationManager.dismiss]
    rw [if_neg]
    intro hmem
    exact ((List.Nodup.mem_erase_iff hnd).mp hmem).1 rfl
  · intro x hx
    exact List.mem_erase_of_ne hx
  · intro evs hlt' hnm
    exact NotificationManager.run_no_reappear evs s e hlt' hnm

/-- Witness for C5: in the concrete state reached by two show calls and a
manual dismissal of entry 0, dismissing the already-dismissed entry 0 again
leaves the state exactly as it was. -/
theorem NotificationManager.dismiss_idempotent_permanent_witness :
    (0 : Nat) ∉ NotificationManager.sampleDismissed.children
    ∧ NotificationManager.dismiss NotificationManager.sampleDismissed 0
        = NotificationManager.sampleDismissed :=
  ⟨by decide,
   (NotificationManager.dismiss_idempotent_permanent
      NotificationManager.sampleDismissed 0 (by decide)).1 (by decide)⟩

/-! Theorems about `ChartManager`. -/

/-- C1 counterexample: after re-initializing chart id "c" (a second
`initChart` for the same identifier on a page where the container exists),
the registry maps "c" to the new instance 1 only, yet a window resize runs
both attached listeners, resizing the replaced instance 0 as well — the
prior handle's resize listener was never detached — contradicting the claim
that after re-initialization a resize triggers resize only on the currently
registered chart instance for that identifier. -/
theorem ChartManager.initChart_reinit_stale_listener_cex :
    assocGet ChartManager.reinitTwice.charts "c" = some 1
    ∧ ChartManager.fireResize ChartManager.reinitTwice = [0, 1]
    ∧ (0 : Nat) ∈ ChartManager.fireResize ChartManager.reinitTwice
    ∧ assocGet ChartManager.reinitTwice.charts "c" ≠ some 0 := by
  refine ⟨by decide, by decide, by decide, by decide⟩

/-- C1 (amended): `initChart` on an existing container registers the fresh
engine instance under the identifier, replacing any prior handle — the
registry keeps exactly one handle per identifier (keys stay pairwise
distinct and the identifier maps to the new instance) — but the prior
handle's window-resize listener is not detached: the listener list is only
appended to, every previously attached listener survives, so after
re-initialization a window resize triggers resize on the prior instance as
well as on the new one. -/
theorem ChartManager.initChart_replaces_handle_keeps_listeners
    (dom : String → Bool) (s : ChartManager.State) (chartId : String)
    (options : ChartOption) (hdom : dom chartId = true)
    (hkeys : KeysNodup s.charts) :
    (ChartManager.initChart dom s chartId options).1 = some s.nextInst
    ∧ KeysNodup (ChartManager.initChart dom s chartId options).2.charts
    ∧ assocGet (ChartManager.initChart dom s chartId options).2.charts chartId
        = some s.nextInst
    ∧ (ChartManager.initChart dom s chartId options).2.listeners
        = s.listeners ++ [s.nextInst] := by
  unfold ChartManager.initChart
  rw [if_pos hdom]
  exact ⟨rfl, keysNodup_assocSet _ _ _ hkeys, assocGet_assocSet_self _ _ _, rfl⟩

/-- Witness for the amended C1 at the concrete re-initialization scenario:
the second initialization of "c" keeps the old listener and appends one for
the new instance. -/
theorem ChartManager.initChart_replaces_handle_keeps_listeners_witness :
    (ChartManager.initChart ChartManager.domAll ChartManager.reinitOnce "c"
        (ChartManager.trendOption none)).2.listeners
      = ChartManager.reinitOnce.listeners ++ [ChartManager.reinitOnce.nextInst] :=
  (ChartManager.initChart_replaces_handle_keeps_listeners ChartManager.domAll
    ChartManager.reinitOnce "c" (ChartManager.trendOption none) rfl
    (by decide)).2.2.2

/-- C8: when the target container element does not exist in the DOM at call
time, `initChart` logs an error and returns null without throwing (the
embedding is a total function), leaving the registry — and the listener
list — unchanged; `createSensorTrendChart`, which delegates to `initChart`,
behaves identically. -/
theorem ChartManager.initChart_missing_container (dom : String → Bool)
    (s : ChartManager.State) (chartId : String) (options : ChartOption)
    (sensorData : Option (List (String × SensorData)))
    (h : dom chartId = false) :
    ChartManager.initChart dom s chartId options = (none, s)
    ∧ ChartManager.createSensorTrendChart dom s chartId sensorData = (none, s) := by
  unfold ChartManager.createSensorTrendChart ChartManager.initChart
  simp [h]

/-- Witness for C8 on a page with no containers at all. -/
theorem ChartManager.initChart_missing_container_witness :
    ChartManager.initChart (fun _ => false) ChartManager.initial "c1"
        (ChartManager.trendOption none) = (none, ChartManager.initial)
    ∧ ChartManager.createSensorTrendChart (fun _ => false) ChartManager.initial
        "c1" none = (none, ChartManager.initial) :=
  ChartManager.initChart_missing_container (fun _ => false) ChartManager.initial
    "c1" (ChartManager.trendOption none) none rfl

theorem ChartManager.buildSeries_eq (sensorData : List (String × SensorData)) :
    ChartManager.buildSeries sensorData
      = (sensorData.filter fun p => ChartManager.hasHistory p.2).map
          ChartManager.mkSeries := by
  induction sensorData with
  | nil => rfl
  | cons p rest ih =>
    obtain ⟨sid, d⟩ := p
    obtain ⟨nm, hist⟩ := d
    cases hist with
    | none =>
      simpa [ChartManager.buildSeries, ChartManager.hasHistory,
        List.filter_cons] using ih
    | some h =>
      by_cases hl : h.length > 0
      · simp [ChartManager.buildSeries, ChartManager.hasHistory, hl,
          List.filter_cons, ChartManager.mkSeries, ih]
      · simp [ChartManager.buildSeries, ChartManager.hasHistory, hl,
          List.filter_cons, ih]

/-- C7: for every sensor-series map, the trend chart option contains
exactly one smoothed line series of (timestamp, value) pairs per map entry
whose history is non-empty, in the iteration order of the map — entries
whose history is empty or missing are silently skipped; in particular the
map with "Temp" (empty history) and "Humidity" (one sample), given to
`createSensorTrendChart` on an existing container, registers a chart whose
applied option has exactly the single "Humidity" series, and `resizeAll`
afterwards resizes exactly the registered charts (a total operation: ids
never initialized are simply absent from the registry). -/
theorem ChartManager.createSensorTrendChart_series_spec :
    (∀ sensorData : List (String × SensorData),
      (ChartManager.trendOption (some sensorData)).series
        = (sensorData.filter fun p => ChartManager.hasHistory p.2).map
            ChartManager.mkSeries)
    ∧ ((ChartManager.createSensorTrendChart ChartManager.domAll
          ChartManager.initial "c1" (some ChartManager.exampleSensorData)).1
        = some 0)
    ∧ ((ChartManager.createSensorTrendChart ChartManager.domAll
          ChartManager.initial "c1"
          (some ChartManager.exampleSensorData)).2.instOptions
        = [(0, ChartManager.trendOption (some ChartManager.exampleSensorData))])
    ∧ (ChartManager.trendOption (some ChartManager.exampleSensorData)).series
        = [⟨"Humidity", "line", [(1000, 20)], true⟩]
    ∧ (∀ s : ChartManager.State,
        ChartManager.resizeAll s = s.charts.map Prod.snd)
    ∧ ChartManager.resizeAll
        (ChartManager.createSensorTrendChart ChartManager.domAll
          ChartManager.initial "c1" (some ChartManager.exampleSensorData)).2
        = [0] := by
  refine ⟨?_, rfl, rfl, rfl, fun s => rfl, rfl⟩
  intro sensorData
  cases sensorData with
  | nil => rfl
  | cons p rest =>
    simp only [ChartManager.trendOption]
    rw [if_pos (by simp)]
    exact ChartManager.buildSeries_eq _
